import Mathlib

/-!
# QuickPoll server core: shallow embedding

This file embeds the state-holding core of the quickpoll server
(`src/server/src/models/poll.model.ts`, `src/server/src/services/timer.service.ts`,
and the poll service / socket controller business logic) and proves the
specification's claims about it.

Embedding conventions:
* A JS `Map<string, Student>` is modelled as an insertion-ordered association
  list `List (String × Student)`; `Map.set` updates in place (keeping order) or
  appends, `Map.get` finds the entry with the key, `Map.delete` removes it, and
  iteration (`forEach`, spread) walks the list in order — exactly the JS `Map`
  iteration contract.
* `Date` timestamps and the `timerHandle` field are not part of any claim's
  observable state and are omitted; arming and cancelling real timers is
  modelled by the trigger events (`Trigger`) delivered to the poll, since the
  server serializes all handlers on one event loop.
* Every TypeScript `throw new AppError(msg)` happens before any state mutation
  in the functions modelled here, so a fallible operation is a pure function
  returning `Except PollError Poll`: on `.error` the caller's state is the
  unchanged input poll.
* `nanoid()` identifiers are taken as explicit parameters (the source's only
  use of them is as opaque fresh strings).
* The source names its option record `Option`; that name is taken by Lean's
  core `Option`, so it is rendered `PollOption` here.
-/

/-- The poll lifecycle status, `src/server/src/models/poll.model.ts` line 39:
`status: 'waiting' | 'active' | 'ended'`. -/
inductive PollStatus where
  | waiting
  | active
  | ended
deriving DecidableEq, Repr

/-- `Student` record, poll.model.ts lines 9–15 (the `joinedAt : Date` field is
omitted: no claim observes it). In JS `answer?: string` is `undefined`/`null`
or a string; modelled as `Option String`. -/
structure Student where
  socketId : String
  name : String
  hasAnswered : Bool
  answer : Option String
deriving DecidableEq, Repr

/-- The source's `Option` record (poll.model.ts lines 17–21): an option of a
question with a mutable vote counter. -/
structure PollOption where
  id : String
  text : String
  votes : Nat
deriving DecidableEq, Repr

/-- `Question` record, poll.model.ts lines 23–30 (`startedAt` and
`timerHandle` omitted, see the file header). -/
structure Question where
  id : String
  text : String
  options : List PollOption
  timeout : Nat
deriving DecidableEq, Repr

/-- `QuestionResult` snapshot, poll.model.ts lines 43–50 (`timestamp`
omitted). -/
structure QuestionResult where
  questionId : String
  question : String
  options : List PollOption
  totalResponses : Nat
  participants : List String
deriving DecidableEq, Repr

/-- `Poll` record, poll.model.ts lines 32–41 (`createdAt` and the bonus
`chatMessages` omitted: no claim observes them). -/
structure Poll where
  id : String
  teacherSocketId : String
  students : List (String × Student)
  currentQuestion : Option Question
  questionHistory : List QuestionResult
  status : PollStatus
deriving DecidableEq, Repr

/-- The error taxonomy of `ERROR_MESSAGES` in `src/server/src/utils/constants.ts`
plus the literal string thrown at poll.service `submitAnswer` ("Question has
changed", rendered `questionChanged`). The spec's names map as:
`NoActiveQuestion` = `pollNotActive`, `QuestionMismatch` = `questionChanged`,
`ParticipantNotFound` = `studentNotFound`, `AlreadyAnswered` = `alreadyAnswered`,
`InvalidOption` = `invalidAnswer`, `QuestionAlreadyActive` = `pollAlreadyActive`. -/
inductive PollError where
  | pollNotFound
  | pollAlreadyActive
  | pollNotActive
  | questionChanged
  | studentNotFound
  | alreadyAnswered
  | invalidAnswer
  | duplicateName
  | maxStudentsReached
deriving DecidableEq, Repr

/-- `LIMITS.MAX_STUDENTS_PER_POLL` from constants.ts. -/
def MAX_STUDENTS_PER_POLL : Nat := 100

/-- `Map.get` on the students map: the value stored at `sid`, if any. -/
def lookupStudent : List (String × Student) → String → Option Student
  | [], _ => none
  | (k, v) :: rest, sid => if k = sid then some v else lookupStudent rest sid

/-- `Map.set` on the students map: replace in place if the key is present
(JS `Map.set` keeps the original insertion position), else append. -/
def setStudent : List (String × Student) → String → Student → List (String × Student)
  | [], sid, st => [(sid, st)]
  | (k, v) :: rest, sid, st =>
      if k = sid then (k, st) :: rest else (k, v) :: setStudent rest sid st

/-- `Map.delete` on the students map: drop the entry with the key. -/
def eraseStudent : List (String × Student) → String → List (String × Student)
  | [], _ => []
  | (k, v) :: rest, sid => if k = sid then rest else (k, v) :: eraseStudent rest sid

/-- `PollStore.updateStudent` (poll.model.ts lines 125–131): if the student is
present, replace it by the merge `{ ...student, ...updates }`; the partial
update is passed as the function `f`. Absent key: no change. -/
def updateStudent (students : List (String × Student)) (sid : String)
    (f : Student → Student) : List (String × Student) :=
  match lookupStudent students sid with
  | none => students
  | some st => setStudent students sid (f st)

/-- `PollStore.createPoll` (poll.model.ts lines 78–93): a fresh poll in
status `waiting` with no students, no current question and empty history. -/
def createPoll (pollId teacherSocketId : String) : Poll :=
  { id := pollId
    teacherSocketId := teacherSocketId
    students := []
    currentQuestion := none
    questionHistory := []
    status := PollStatus.waiting }

/-- The `Student` record constructed on join (part_003 lines 176–182):
`hasAnswered := false` and `answer := null`. -/
def mkStudent (sid name : String) : Student :=
  { socketId := sid, name := name, hasAnswered := false, answer := none }

/-- ASCII lowercasing of one character, the effect of JS
`String.prototype.toLowerCase()` on the ASCII range. (Lean core's
`String.toLower` is built on a `partial` helper the kernel cannot evaluate,
so the embedding carries its own executable definition.) -/
def lowerChar (c : Char) : Char :=
  if 65 ≤ c.toNat ∧ c.toNat ≤ 90 then Char.ofNat (c.toNat + 32) else c

/-- JS `name.toLowerCase()` as used by the duplicate-name check. -/
def lowerCase (s : String) : String :=
  String.mk (s.data.map lowerChar)

/-- `PollService.addStudentToPoll`: reject when the poll is full, then when
another student already has the same name case-insensitively; otherwise add
the student via `PollStore.addStudent` (`Map.set` of a fresh key = append). -/
def addStudentToPoll (p : Poll) (sid name : String) : Except PollError Poll :=
  if MAX_STUDENTS_PER_POLL ≤ p.students.length then
    Except.error PollError.maxStudentsReached
  else if p.students.any (fun kv => lowerCase kv.2.name = lowerCase name) then
    Except.error PollError.duplicateName
  else
    Except.ok { p with students := setStudent p.students sid (mkStudent sid name) }

/-- `PollService.removeStudentFromPoll` (part_003 lines 193–204): throw
`STUDENT_NOT_FOUND` when the student is absent, otherwise
`PollStore.removeStudent` = `Map.delete` plus dropping the student→poll
mapping. The socket handlers for explicit removal, leave and disconnect all
call exactly this and never the all-answered check (part_005). -/
def removeStudentFromPoll (p : Poll) (sid : String) : Except PollError Poll :=
  match lookupStudent p.students sid with
  | none => Except.error PollError.studentNotFound
  | some _ => Except.ok { p with students := eraseStudent p.students sid }

/-- The options constructed by `PollService.startQuestion`:
`options.map((text, index) => ({ id: option_index, text, votes: 0 }))`. -/
def mkOptions (texts : List String) : List PollOption :=
  texts.enum.map (fun it =>
    { id := "option_" ++ toString it.1, text := it.2, votes := 0 })

/-- The per-student reset performed both by `startQuestion` (part_003 lines
233–236, `{ hasAnswered: false, answer: null }`) and by
`TimerService.onTimerExpired` (timer.service.ts lines 75–78,
`{ hasAnswered: false, answer: undefined }`): `forEach` + `updateStudent`
over every entry. -/
def resetStudents (students : List (String × Student)) : List (String × Student) :=
  students.map (fun kv => (kv.1, { kv.2 with hasAnswered := false, answer := none }))

/-- `PollService.startQuestion` (part_003 lines 209–240): fail with
`POLL_ALREADY_ACTIVE` when a question is already active; otherwise install a
fresh question with zero-vote options, set status to `active`, and reset every
student's answer state. The fresh `nanoid` becomes the parameter `qid`. -/
def startQuestion (p : Poll) (qid questionText : String) (options : List String)
    (timeout : Nat) : Except PollError Poll :=
  match p.currentQuestion with
  | some _ => Except.error PollError.pollAlreadyActive
  | none =>
      Except.ok { p with
        currentQuestion := some
          { id := qid, text := questionText, options := mkOptions options,
            timeout := timeout }
        status := PollStatus.active
        students := resetStudents p.students }

/-- Increment the vote counter of the first option whose id matches, exactly
as `options.find(opt => opt.id === answer)` followed by `option.votes++`. -/
def incFirstVote : List PollOption → String → List PollOption
  | [], _ => []
  | o :: rest, ans =>
      if o.id = ans then { o with votes := o.votes + 1 } :: rest
      else o :: incFirstVote rest ans

/-- `PollService.submitAnswer` (part_003 lines 245–288). Checks, in source
order: an active question exists (`POLL_NOT_ACTIVE`); its id matches the
submitted `questionId` ("Question has changed"); the student exists
(`STUDENT_NOT_FOUND`); the student has not answered (`ALREADY_ANSWERED`); the
answer names an existing option (`INVALID_ANSWER`). On success: mark the
student answered with the chosen option and increment that option's counter. -/
def submitAnswer (p : Poll) (sid qid ans : String) : Except PollError Poll :=
  match p.currentQuestion with
  | none => Except.error PollError.pollNotActive
  | some q =>
      if q.id ≠ qid then Except.error PollError.questionChanged
      else
        match lookupStudent p.students sid with
        | none => Except.error PollError.studentNotFound
        | some st =>
            if st.hasAnswered then Except.error PollError.alreadyAnswered
            else if ¬ (q.options.any (fun o => o.id = ans)) then
              Except.error PollError.invalidAnswer
            else
              Except.ok { p with
                students := updateStudent p.students sid
                  (fun s => { s with hasAnswered := true, answer := some ans })
                currentQuestion := some { q with options := incFirstVote q.options ans } }

/-- JS truthiness of `student.answer` as used in
`TimerService.calculateResults` (`student.hasAnswered && student.answer`):
a string is truthy iff it is non-empty. -/
def answerTruthy : Option String → Bool
  | none => false
  | some a => a ≠ ""

/-- The record returned by `TimerService.calculateResults`. -/
structure Results where
  options : List PollOption
  totalResponses : Nat
  participants : List String
deriving DecidableEq, Repr

/-- `TimerService.calculateResults` (timer.service.ts lines 96–128): when no
question is active the empty snapshot; otherwise recount the votes from the
students' stored answers (a student counts iff `hasAnswered` and a truthy
`answer`), rebuild the option list in the question's order with the
recomputed counts, and list the counted students' names in map order. -/
def calculateResults (p : Poll) : Results :=
  match p.currentQuestion with
  | none => { options := [], totalResponses := 0, participants := [] }
  | some q =>
      let resp := p.students.filter
        (fun kv => kv.2.hasAnswered && answerTruthy kv.2.answer)
      let participants := resp.map (fun kv => kv.2.name)
      { options := q.options.map (fun o =>
          { o with votes := (resp.filter (fun kv => kv.2.answer = some o.id)).length })
        totalResponses := participants.length
        participants := participants }

/-- `TimerService.onTimerExpired` (timer.service.ts lines 44–91): a no-op when
the poll has no current question or the current question's id differs from the
expired timer's `questionId`; otherwise append the closing snapshot to the
history (using the question's live option counters, line 65, and the
recomputed totals of `calculateResults`), clear the current question, return
the status to `waiting`, and reset every student's answer state. -/
def onTimerExpired (p : Poll) (questionId : String) : Poll :=
  match p.currentQuestion with
  | none => p
  | some q =>
      if q.id ≠ questionId then p
      else
        let results := calculateResults p
        { p with
          questionHistory := p.questionHistory ++
            [{ questionId := q.id, question := q.text, options := q.options,
               totalResponses := results.totalResponses,
               participants := results.participants }]
          currentQuestion := none
          status := PollStatus.waiting
          students := resetStudents p.students }

/-- `TimerService.endQuestionEarly` (timer.service.ts lines 152–170): a no-op
when no question is active; otherwise clear the timer and run the expiry
logic for the current question's own id (so its guard passes). -/
def endQuestionEarly (p : Poll) : Poll :=
  match p.currentQuestion with
  | none => p
  | some q => onTimerExpired p q.id

/-- `TimerService.checkAllAnswered` (timer.service.ts lines 133–147): false
for an empty poll, otherwise whether every student has answered. -/
def checkAllAnswered (p : Poll) : Bool :=
  if p.students.length = 0 then false
  else p.students.all (fun kv => kv.2.hasAnswered)

/-- The record returned by `PollService.getPollResults`. -/
structure LiveResults where
  question : String
  options : List PollOption
  totalResponses : Nat
  totalStudents : Nat
  participants : List String
deriving DecidableEq, Repr

/-- `PollService.getPollResults` (part_003 lines 293–312): fails when no
question is active; otherwise reports the live option counters of the current
question, the number of students with `hasAnswered`, and their names. -/
def getPollResults (p : Poll) : Except PollError LiveResults :=
  match p.currentQuestion with
  | none => Except.error PollError.pollNotActive
  | some q =>
      Except.ok
        { question := q.text
          options := q.options
          totalResponses := (p.students.filter (fun kv => kv.2.hasAnswered)).length
          totalStudents := p.students.length
          participants := (p.students.filter (fun kv => kv.2.hasAnswered)).map
            (fun kv => kv.2.name) }

/-- A close trigger delivered to a poll's event loop: the deadline timer
callback carries the question id it was armed for; the manual end and the
all-answered check both call `endQuestionEarly`, which targets whatever
question is current. -/
inductive Trigger where
  | timer (questionId : String)
  | endEarly
deriving DecidableEq, Repr

/-- Deliver one close trigger to the poll. -/
def applyTrigger (p : Poll) : Trigger → Poll
  | Trigger.timer qid => onTimerExpired p qid
  | Trigger.endEarly => endQuestionEarly p

/-- Deliver a sequence of close triggers in order (the server's single event
loop serializes them). -/
def applyTriggers (p : Poll) (ts : List Trigger) : Poll :=
  ts.foldl applyTrigger p

/-- Sum of the option vote counters. -/
def sumVotes (os : List PollOption) : Nat :=
  (os.map PollOption.votes).sum

/-- Number of students with `hasAnswered = true`. -/
def answeredCount (students : List (String × Student)) : Nat :=
  (students.filter (fun kv => kv.2.hasAnswered)).length

/-- The states reachable through the embedded operations: poll creation,
join, removal (explicit removal / leave / disconnect all reduce to
`removeStudentFromPoll`), question start, answer submission, timer expiry and
early end. -/
inductive Reachable : Poll → Prop where
  | create (pollId tid : String) : Reachable (createPoll pollId tid)
  | add {p p' : Poll} (sid name : String) :
      Reachable p → addStudentToPoll p sid name = Except.ok p' → Reachable p'
  | remove {p p' : Poll} (sid : String) :
      Reachable p → removeStudentFromPoll p sid = Except.ok p' → Reachable p'
  | start {p p' : Poll} (qid text : String) (opts : List String) (t : Nat) :
      Reachable p → startQuestion p qid text opts t = Except.ok p' → Reachable p'
  | submit {p p' : Poll} (sid qid ans : String) :
      Reachable p → submitAnswer p sid qid ans = Except.ok p' → Reachable p'
  | timerFired {p : Poll} (qid : String) :
      Reachable p → Reachable (onTimerExpired p qid)
  | endEarly {p : Poll} :
      Reachable p → Reachable (endQuestionEarly p)

/-- The states reachable when every join uses a fresh participant identity and
every removal (explicit removal, leave, disconnect) removes a participant who
has not answered the current question. -/
inductive ReachableNR : Poll → Prop where
  | create (pollId tid : String) : ReachableNR (createPoll pollId tid)
  | add {p p' : Poll} (sid name : String) :
      ReachableNR p → lookupStudent p.students sid = none →
      addStudentToPoll p sid name = Except.ok p' → ReachableNR p'
  | remove {p p' : Poll} (sid : String) (st : Student) :
      ReachableNR p → lookupStudent p.students sid = some st →
      st.hasAnswered = false →
      removeStudentFromPoll p sid = Except.ok p' → ReachableNR p'
  | start {p p' : Poll} (qid text : String) (opts : List String) (t : Nat) :
      ReachableNR p → startQuestion p qid text opts t = Except.ok p' → ReachableNR p'
  | submit {p p' : Poll} (sid qid ans : String) :
      ReachableNR p → submitAnswer p sid qid ans = Except.ok p' → ReachableNR p'
  | timerFired {p : Poll} (qid : String) :
      ReachableNR p → ReachableNR (onTimerExpired p qid)
  | endEarly {p : Poll} :
      ReachableNR p → ReachableNR (endQuestionEarly p)

/-! ## A concrete session used as witness material

A teacher `t1` creates poll `p1`; Alice (`s1`) and Bob (`s2`) join; a question
`q1` with options A and B opens; Alice votes `option_0`; afterwards either
Alice is removed (`exPoll5`), or Bob also votes (`exPoll6`) and is then
removed (`exPoll7`). -/

def exPoll0 : Poll := createPoll "p1" "t1"

def exPoll1 : Poll := (addStudentToPoll exPoll0 "s1" "Alice").toOption.getD exPoll0

def exPoll2 : Poll := (addStudentToPoll exPoll1 "s2" "Bob").toOption.getD exPoll1

def exPoll3 : Poll := (startQuestion exPoll2 "q1" "Q?" ["A", "B"] 10).toOption.getD exPoll2

def exPoll4 : Poll := (submitAnswer exPoll3 "s1" "q1" "option_0").toOption.getD exPoll3

def exPoll5 : Poll := (removeStudentFromPoll exPoll4 "s1").toOption.getD exPoll4

def exPoll6 : Poll := (submitAnswer exPoll4 "s2" "q1" "option_1").toOption.getD exPoll4

def exPoll7 : Poll := (removeStudentFromPoll exPoll6 "s2").toOption.getD exPoll6

/-- The question active in `exPoll3` (fresh, zero votes). -/
def exQuestion3 : Question :=
  { id := "q1", text := "Q?"
    options := [{ id := "option_0", text := "A", votes := 0 },
                { id := "option_1", text := "B", votes := 0 }]
    timeout := 10 }

/-- Alice's record right after joining / after the question opens. -/
def exAlice : Student := mkStudent "s1" "Alice"

/-- The question active in `exPoll4` (Alice's vote recorded on `option_0`). -/
def exQuestion4 : Question :=
  { id := "q1", text := "Q?"
    options := [{ id := "option_0", text := "A", votes := 1 },
                { id := "option_1", text := "B", votes := 0 }]
    timeout := 10 }

/-- The question active in `exPoll6` and `exPoll7` (Alice on `option_0`,
Bob on `option_1`). -/
def exQuestion6 : Question :=
  { id := "q1", text := "Q?"
    options := [{ id := "option_0", text := "A", votes := 1 },
                { id := "option_1", text := "B", votes := 1 }]
    timeout := 10 }

/-! ## Basic lemmas about the students map and the counters -/

theorem lookupStudent_setStudent_self (s : List (String × Student)) (sid : String)
    (st : Student) : lookupStudent (setStudent s sid st) sid = some st := by
  induction s with
  | nil => simp [setStudent, lookupStudent]
  | cons kv rest ih =>
      by_cases hk : kv.1 = sid
      · simp [setStudent, hk, lookupStudent]
      · simp [setStudent, hk, lookupStudent, ih]

theorem lookupStudent_setStudent_ne (s : List (String × Student)) (sid k : String)
    (st : Student) (hne : k ≠ sid) :
    lookupStudent (setStudent s sid st) k = lookupStudent s k := by
  induction s with
  | nil => simp [setStudent, lookupStudent, Ne.symm hne]
  | cons kv rest ih =>
      by_cases hk : kv.1 = sid
      · subst hk
        simp [setStudent, lookupStudent, Ne.symm hne]
      · simp [setStudent, hk, lookupStudent, ih]

theorem lookupStudent_eraseStudent_ne (s : List (String × Student)) (sid k : String)
    (hne : k ≠ sid) :
    lookupStudent (eraseStudent s sid) k = lookupStudent s k := by
  induction s with
  | nil => simp [eraseStudent]
  | cons kv rest ih =>
      by_cases hk : kv.1 = sid
      · subst hk
        simp [eraseStudent, lookupStudent, Ne.symm hne]
      · simp [eraseStudent, hk, lookupStudent, ih]

theorem lookupStudent_updateStudent_self (s : List (String × Student)) (sid : String)
    (f : Student → Student) {st : Student} (h : lookupStudent s sid = some st) :
    lookupStudent (updateStudent s sid f) sid = some (f st) := by
  simp [updateStudent, h, lookupStudent_setStudent_self]

theorem lookupStudent_updateStudent_ne (s : List (String × Student)) (sid k : String)
    (f : Student → Student) (hne : k ≠ sid) :
    lookupStudent (updateStudent s sid f) k = lookupStudent s k := by
  unfold updateStudent
  cases h : lookupStudent s sid with
  | none => rfl
  | some st => simp [lookupStudent_setStudent_ne _ _ _ _ hne]

theorem answeredCount_nil : answeredCount [] = 0 := rfl

theorem answeredCount_cons (kv : String × Student) (rest : List (String × Student)) :
    answeredCount (kv :: rest) =
      (if kv.2.hasAnswered then 1 else 0) + answeredCount rest := by
  by_cases h : kv.2.hasAnswered
  · simp [answeredCount, List.filter, h]
    omega
  · simp [answeredCount, List.filter, h]

theorem answeredCount_setStudent_of_false {s : List (String × Student)} {sid : String}
    {st : Student} (st' : Student) (hl : lookupStudent s sid = some st)
    (hst : st.hasAnswered = false) (hst' : st'.hasAnswered = true) :
    answeredCount (setStudent s sid st') = answeredCount s + 1 := by
  induction s with
  | nil => simp [lookupStudent] at hl
  | cons kv rest ih =>
      by_cases hk : kv.1 = sid
      · simp [lookupStudent, hk] at hl
        subst hl
        simp [setStudent, hk, answeredCount_cons, hst, hst']
        omega
      · simp [lookupStudent, hk] at hl
        simp [setStudent, hk, answeredCount_cons, ih hl]
        omega

theorem answeredCount_updateStudent_of_false {s : List (String × Student)} {sid : String}
    {st : Student} {f : Student → Student} (hl : lookupStudent s sid = some st)
    (hst : st.hasAnswered = false) (hf : (f st).hasAnswered = true) :
    answeredCount (updateStudent s sid f) = answeredCount s + 1 := by
  simp [updateStudent, hl, answeredCount_setStudent_of_false (f st) hl hst hf]

theorem answeredCount_eraseStudent_of_false {s : List (String × Student)} {sid : String}
    {st : Student} (hl : lookupStudent s sid = some st) (hst : st.hasAnswered = false) :
    answeredCount (eraseStudent s sid) = answeredCount s := by
  induction s with
  | nil => simp [lookupStudent] at hl
  | cons kv rest ih =>
      by_cases hk : kv.1 = sid
      · simp [lookupStudent, hk] at hl
        subst hl
        simp [eraseStudent, hk, answeredCount_cons, hst]
      · simp [lookupStudent, hk] at hl
        simp [eraseStudent, hk, answeredCount_cons, ih hl]

theorem mem_resetStudents {s : List (String × Student)} {kv : String × Student}
    (h : kv ∈ resetStudents s) : kv.2.hasAnswered = false ∧ kv.2.answer = none := by
  unfold resetStudents at h
  obtain ⟨kv', _, rfl⟩ := List.mem_map.1 h
  exact ⟨rfl, rfl⟩

theorem answeredCount_resetStudents (s : List (String × Student)) :
    answeredCount (resetStudents s) = 0 := by
  induction s with
  | nil => rfl
  | cons kv rest ih => simp [resetStudents, answeredCount_cons] at ih ⊢; simpa using ih

theorem resetStudents_keys (s : List (String × Student)) :
    (resetStudents s).map Prod.fst = s.map Prod.fst := by
  simp [resetStudents]

/-! ## Lemmas about the option lists -/

theorem sumVotes_nil : sumVotes [] = 0 := rfl

theorem sumVotes_cons (o : PollOption) (os : List PollOption) :
    sumVotes (o :: os) = o.votes + sumVotes os := by
  simp [sumVotes]

theorem sumVotes_incFirstVote {os : List PollOption} {ans : String}
    (h : os.any (fun o => o.id = ans) = true) :
    sumVotes (incFirstVote os ans) = sumVotes os + 1 := by
  induction os with
  | nil => simp at h
  | cons o rest ih =>
      by_cases ho : o.id = ans
      · simp [incFirstVote, ho, sumVotes_cons]
        omega
      · have h' : (rest.any fun o => o.id = ans) = true := by
          simp only [List.any_cons, Bool.or_eq_true, decide_eq_true_eq] at h
          rcases h with h | h
          · exact absurd h ho
          · exact h
        simp [incFirstVote, ho, sumVotes_cons, ih h']
        omega

theorem mkOptions_votes {texts : List String} {o : PollOption}
    (h : o ∈ mkOptions texts) : o.votes = 0 := by
  unfold mkOptions at h
  obtain ⟨it, _, rfl⟩ := List.mem_map.1 h
  rfl

theorem mkOptions_texts (texts : List String) :
    (mkOptions texts).map PollOption.text = texts := by
  unfold mkOptions
  rw [List.map_map]
  have : (PollOption.text ∘ fun it : Nat × String =>
      ({ id := "option_" ++ toString it.1, text := it.2, votes := 0 } : PollOption)) =
      Prod.snd := by
    funext it
    rfl
  rw [this, List.enum_map_snd]

theorem sumVotes_eq_zero {os : List PollOption} (h : ∀ o ∈ os, o.votes = 0) :
    sumVotes os = 0 := by
  induction os with
  | nil => rfl
  | cons o rest ih =>
      rw [sumVotes_cons, h o (List.mem_cons_self o rest), ih fun o' ho' =>
        h o' (List.mem_cons_of_mem o ho')]

theorem sumVotes_mkOptions (texts : List String) : sumVotes (mkOptions texts) = 0 :=
  sumVotes_eq_zero fun _ ho => mkOptions_votes ho

theorem incFirstVote_of_not_mem {os : List PollOption} {ans : String}
    (h : ∀ o ∈ os, o.id ≠ ans) : incFirstVote os ans = os := by
  induction os with
  | nil => rfl
  | cons o rest ih =>
      rw [incFirstVote, if_neg (h o (List.mem_cons_self o rest)),
        ih fun o' ho' => h o' (List.mem_cons_of_mem o ho')]

theorem incFirstVote_eq_map_of_nodup {os : List PollOption} {ans : String}
    (hnd : (os.map PollOption.id).Nodup) :
    incFirstVote os ans =
      os.map (fun o => if o.id = ans then { o with votes := o.votes + 1 } else o) := by
  induction os with
  | nil => rfl
  | cons o rest ih =>
      rw [List.map_cons, List.nodup_cons] at hnd
      by_cases ho : o.id = ans
      · have hrest : ∀ o' ∈ rest, o'.id ≠ ans := by
          intro o' ho' he
          apply hnd.1
          rw [ho, ← he]
          exact List.mem_map.2 ⟨o', ho', rfl⟩
        have hmap : rest.map (fun o' => if o'.id = ans then
            { o' with votes := o'.votes + 1 } else o') = rest := by
          rw [List.map_congr_left fun o' ho' => if_neg (hrest o' ho')]
          simp
        simp [incFirstVote, ho, hmap]
      · simp [incFirstVote, ho, ih hnd.2]

/-! ## Inversion lemmas for the fallible operations -/

theorem addStudentToPoll_ok {p p' : Poll} {sid name : String}
    (h : addStudentToPoll p sid name = Except.ok p') :
    p' = { p with students := setStudent p.students sid (mkStudent sid name) } := by
  unfold addStudentToPoll at h
  split at h
  · exact absurd h (by simp)
  · split at h
    · exact absurd h (by simp)
    · exact (Except.ok.injEq _ _ ▸ h).symm

theorem removeStudentFromPoll_ok {p p' : Poll} {sid : String}
    (h : removeStudentFromPoll p sid = Except.ok p') :
    (∃ st, lookupStudent p.students sid = some st) ∧
      p' = { p with students := eraseStudent p.students sid } := by
  unfold removeStudentFromPoll at h
  split at h
  · exact absurd h (by simp)
  · rename_i st hst
    exact ⟨⟨st, hst⟩, (Except.ok.injEq _ _ ▸ h).symm⟩

theorem startQuestion_ok {p p' : Poll} {qid text : String} {opts : List String} {t : Nat}
    (h : startQuestion p qid text opts t = Except.ok p') :
    p.currentQuestion = none ∧
      p' = { p with
        currentQuestion := some
          { id := qid, text := text, options := mkOptions opts, timeout := t }
        status := PollStatus.active
        students := resetStudents p.students } := by
  unfold startQuestion at h
  split at h
  · exact absurd h (by simp)
  · rename_i hq
    exact ⟨hq, (Except.ok.injEq _ _ ▸ h).symm⟩

theorem submitAnswer_ok {p p' : Poll} {sid qid ans : String}
    (h : submitAnswer p sid qid ans = Except.ok p') :
    ∃ q st, p.currentQuestion = some q ∧ q.id = qid ∧
      lookupStudent p.students sid = some st ∧ st.hasAnswered = false ∧
      (q.options.any fun o => o.id = ans) = true ∧
      p' = { p with
        students := updateStudent p.students sid
          (fun s => { s with hasAnswered := true, answer := some ans })
        currentQuestion := some { q with options := incFirstVote q.options ans } } := by
  unfold submitAnswer at h
  split at h
  · exact absurd h (by simp)
  · rename_i q hq
    split at h
    · exact absurd h (by simp)
    · rename_i hid
      split at h
      · exact absurd h (by simp)
      · rename_i st hst
        split at h
        · exact absurd h (by simp)
        · rename_i hha
          split at h
          · exact absurd h (by simp)
          · rename_i hopt
            refine ⟨q, st, hq, by push_neg at hid; exact hid, hst,
              by simpa using hha, by simpa using hopt,
              (Except.ok.injEq _ _ ▸ h).symm⟩

/-! ## No-op and closing lemmas for the lifecycle controller -/

theorem onTimerExpired_none {p : Poll} (h : p.currentQuestion = none) (qid : String) :
    onTimerExpired p qid = p := by
  unfold onTimerExpired
  rw [h]

theorem endQuestionEarly_none {p : Poll} (h : p.currentQuestion = none) :
    endQuestionEarly p = p := by
  unfold endQuestionEarly
  rw [h]

theorem onTimerExpired_mismatch {p : Poll} {q : Question}
    (h : p.currentQuestion = some q) {qid : String} (hne : q.id ≠ qid) :
    onTimerExpired p qid = p := by
  unfold onTimerExpired
  rw [h]
  simp [hne]

theorem onTimerExpired_match {p : Poll} {q : Question}
    (h : p.currentQuestion = some q) :
    onTimerExpired p q.id = { p with
      questionHistory := p.questionHistory ++
        [{ questionId := q.id, question := q.text, options := q.options,
           totalResponses := (calculateResults p).totalResponses,
           participants := (calculateResults p).participants }]
      currentQuestion := none
      status := PollStatus.waiting
      students := resetStudents p.students } := by
  unfold onTimerExpired
  rw [h]
  simp

theorem endQuestionEarly_match {p : Poll} {q : Question}
    (h : p.currentQuestion = some q) :
    endQuestionEarly p = onTimerExpired p q.id := by
  unfold endQuestionEarly
  rw [h]

theorem applyTrigger_none {p : Poll} (h : p.currentQuestion = none) (t : Trigger) :
    applyTrigger p t = p := by
  cases t with
  | timer qid => exact onTimerExpired_none h qid
  | endEarly => exact endQuestionEarly_none h

theorem applyTriggers_none {p : Poll} (h : p.currentQuestion = none)
    (ts : List Trigger) : applyTriggers p ts = p := by
  induction ts with
  | nil => rfl
  | cons t ts ih =>
      show applyTriggers (applyTrigger p t) ts = p
      rw [applyTrigger_none h t, ih]

/-! ## Reachability invariants -/

theorem reachable_active_iff {p : Poll} (h : Reachable p) :
    p.currentQuestion.isSome ↔ p.status = PollStatus.active := by
  induction h with
  | create pollId tid => simp [createPoll]
  | add sid name _ heq ih =>
      rw [addStudentToPoll_ok heq]
      simpa using ih
  | remove sid _ heq ih =>
      rw [(removeStudentFromPoll_ok heq).2]
      simpa using ih
  | start qid text opts t _ heq ih =>
      rw [(startQuestion_ok heq).2]
      simp
  | submit sid qid ans hr heq ih =>
      rename_i p p'
      obtain ⟨q, st, hq, _, _, _, _, rfl⟩ := submitAnswer_ok heq
      have hact : p.status = PollStatus.active := ih.1 (by rw [hq]; rfl)
      simp [hact]
  | timerFired qid _ ih =>
      rename_i p _
      cases hc : p.currentQuestion with
      | none => rw [onTimerExpired_none hc]; exact ih
      | some q =>
          by_cases hid : q.id = qid
          · subst hid
            rw [onTimerExpired_match hc]
            simp
          · rw [onTimerExpired_mismatch hc hid]
            exact ih
  | endEarly _ ih =>
      rename_i p _
      cases hc : p.currentQuestion with
      | none => rw [endQuestionEarly_none hc]; exact ih
      | some q =>
          rw [endQuestionEarly_match hc, onTimerExpired_match hc]
          simp

theorem reachable_status_not_ended {p : Poll} (h : Reachable p) :
    p.status = PollStatus.waiting ∨ p.status = PollStatus.active := by
  induction h with
  | create pollId tid => left; rfl
  | add sid name _ heq ih =>
      rw [addStudentToPoll_ok heq]
      simpa using ih
  | remove sid _ heq ih =>
      rw [(removeStudentFromPoll_ok heq).2]
      simpa using ih
  | start qid text opts t _ heq ih =>
      rw [(startQuestion_ok heq).2]
      right; rfl
  | submit sid qid ans _ heq ih =>
      obtain ⟨q, st, hq, _, _, _, _, rfl⟩ := submitAnswer_ok heq
      simpa using ih
  | timerFired qid _ ih =>
      rename_i p _
      cases hc : p.currentQuestion with
      | none => rw [onTimerExpired_none hc]; exact ih
      | some q =>
          by_cases hid : q.id = qid
          · subst hid
            rw [onTimerExpired_match hc]
            left; rfl
          · rw [onTimerExpired_mismatch hc hid]
            exact ih
  | endEarly _ ih =>
      rename_i p _
      cases hc : p.currentQuestion with
      | none => rw [endQuestionEarly_none hc]; exact ih
      | some q =>
          rw [endQuestionEarly_match hc, onTimerExpired_match hc]
          left; rfl

theorem setStudent_of_fresh {s : List (String × Student)} {sid : String}
    (h : lookupStudent s sid = none) (st : Student) :
    setStudent s sid st = s ++ [(sid, st)] := by
  induction s with
  | nil => rfl
  | cons kv rest ih =>
      unfold lookupStudent at h
      by_cases hk : kv.1 = sid
      · simp [hk] at h
      · simp [hk] at h
        simp [setStudent, hk, ih h]

theorem answeredCount_append (a b : List (String × Student)) :
    answeredCount (a ++ b) = answeredCount a + answeredCount b := by
  simp [answeredCount, List.filter_append]

theorem reachableNR_vote_sum {p : Poll} (h : ReachableNR p) :
    ∀ q, p.currentQuestion = some q →
      sumVotes q.options = answeredCount p.students := by
  induction h with
  | create pollId tid =>
      intro q hq
      simp [createPoll] at hq
  | add sid name hr hfresh heq ih =>
      rename_i p p'
      intro q hq
      rw [addStudentToPoll_ok heq] at hq ⊢
      simp only at hq ⊢
      rw [setStudent_of_fresh hfresh, answeredCount_append]
      have : answeredCount [(sid, mkStudent sid name)] = 0 := rfl
      rw [this, Nat.add_zero]
      exact ih q hq
  | remove sid st hr hl hst heq ih =>
      rename_i p p'
      intro q hq
      rw [(removeStudentFromPoll_ok heq).2] at hq ⊢
      simp only at hq ⊢
      rw [answeredCount_eraseStudent_of_false hl hst]
      exact ih q hq
  | start qid text opts t hr heq ih =>
      rename_i p p'
      intro q hq
      rw [(startQuestion_ok heq).2] at hq ⊢
      simp only [Option.some.injEq] at hq
      subst hq
      simp only
      rw [answeredCount_resetStudents]
      exact sumVotes_mkOptions opts
  | submit sid qid ans hr heq ih =>
      rename_i p p'
      intro q hq
      obtain ⟨q₀, st, hq₀, hid, hst, hha, hany, rfl⟩ := submitAnswer_ok heq
      simp only [Option.some.injEq] at hq
      subst hq
      simp only
      rw [sumVotes_incFirstVote hany,
        answeredCount_updateStudent_of_false hst hha rfl, ih q₀ hq₀]
  | timerFired qid hr ih =>
      rename_i p
      intro q hq
      cases hc : p.currentQuestion with
      | none =>
          rw [onTimerExpired_none hc] at hq ⊢
          exact ih q hq
      | some q' =>
          by_cases hid : q'.id = qid
          · subst hid
            rw [onTimerExpired_match hc] at hq
            simp at hq
          · rw [onTimerExpired_mismatch hc hid] at hq ⊢
            exact ih q hq
  | endEarly hr ih =>
      rename_i p
      intro q hq
      cases hc : p.currentQuestion with
      | none =>
          rw [endQuestionEarly_none hc] at hq ⊢
          exact ih q hq
      | some q' =>
          rw [endQuestionEarly_match hc, onTimerExpired_match hc] at hq
          simp at hq

theorem exPoll1_eq : addStudentToPoll exPoll0 "s1" "Alice" = Except.ok exPoll1 := by rfl

theorem exPoll2_eq : addStudentToPoll exPoll1 "s2" "Bob" = Except.ok exPoll2 := by rfl

theorem exPoll3_eq :
    startQuestion exPoll2 "q1" "Q?" ["A", "B"] 10 = Except.ok exPoll3 := by rfl

theorem exPoll4_eq : submitAnswer exPoll3 "s1" "q1" "option_0" = Except.ok exPoll4 := by rfl

theorem exPoll5_eq : removeStudentFromPoll exPoll4 "s1" = Except.ok exPoll5 := by rfl

theorem exPoll6_eq : submitAnswer exPoll4 "s2" "q1" "option_1" = Except.ok exPoll6 := by rfl

theorem exPoll7_eq : removeStudentFromPoll exPoll6 "s2" = Except.ok exPoll7 := by rfl

theorem reachable_exPoll4 : Reachable exPoll4 :=
  Reachable.submit "s1" "q1" "option_0"
    (Reachable.start "q1" "Q?" ["A", "B"] 10
      (Reachable.add "s2" "Bob"
        (Reachable.add "s1" "Alice" (Reachable.create "p1" "t1") exPoll1_eq)
        exPoll2_eq) exPoll3_eq) exPoll4_eq

theorem reachable_exPoll5 : Reachable exPoll5 :=
  Reachable.remove "s1" reachable_exPoll4 exPoll5_eq

theorem reachable_exPoll6 : Reachable exPoll6 :=
  Reachable.submit "s2" "q1" "option_1" reachable_exPoll4 exPoll6_eq

theorem reachableNR_exPoll4 : ReachableNR exPoll4 :=
  ReachableNR.submit "s1" "q1" "option_0"
    (ReachableNR.start "q1" "Q?" ["A", "B"] 10
      (ReachableNR.add "s2" "Bob"
        (ReachableNR.add "s1" "Alice" (ReachableNR.create "p1" "t1") rfl exPoll1_eq)
        rfl exPoll2_eq) exPoll3_eq) exPoll4_eq

/-! ## Claim theorems -/

/-- C1: a close trigger (timer callback, all-answered check, or manual end)
whose question id does not match the active question, or that finds no active
question, is a silent no-op leaving the poll unchanged; consequently, for any
sequence of close triggers aimed at the same question, exactly one snapshot is
appended: the history grows by exactly one. -/
theorem close_exactly_once (p : Poll) (qid : String) :
    (p.currentQuestion = none → onTimerExpired p qid = p ∧ endQuestionEarly p = p) ∧
    (∀ q, p.currentQuestion = some q → q.id ≠ qid → onTimerExpired p qid = p) ∧
    (∀ q ts, p.currentQuestion = some q →
      (∀ t ∈ ts, t = Trigger.timer q.id ∨ t = Trigger.endEarly) → ts ≠ [] →
      (applyTriggers p ts).questionHistory.length = p.questionHistory.length + 1) := by
  refine ⟨fun h => ⟨onTimerExpired_none h qid, endQuestionEarly_none h⟩,
    fun q hq hne => onTimerExpired_mismatch hq hne, ?_⟩
  intro q ts hq hall hne
  cases ts with
  | nil => exact absurd rfl hne
  | cons t ts' =>
      have hstep : applyTrigger p t = onTimerExpired p q.id := by
        rcases hall t (List.mem_cons_self t ts') with rfl | rfl
        · rfl
        · exact endQuestionEarly_match hq
      show (applyTriggers (applyTrigger p t) ts').questionHistory.length = _
      rw [hstep, onTimerExpired_match hq, applyTriggers_none (by rfl) ts']
      simp

/-- Witness for C1 at the concrete session: the timer for `q1` fires and the
teacher also ends the question; the history grows by exactly one. -/
theorem close_exactly_once_witness :
    (applyTriggers exPoll4 [Trigger.timer "q1", Trigger.endEarly]).questionHistory.length =
      exPoll4.questionHistory.length + 1 :=
  (close_exactly_once exPoll4 "q1").2.2 exQuestion4
    [Trigger.timer "q1", Trigger.endEarly] rfl (by decide) (by decide)

/-- C5: on every reachable poll, a current question exists iff the status is
`active`; reachability closes the states under create, join, removal, open,
submit, timer expiry and manual end, so every operation preserves the
equivalence. -/
theorem active_status_equivalence (p : Poll) (h : Reachable p) :
    p.currentQuestion.isSome ↔ p.status = PollStatus.active :=
  reachable_active_iff h

/-- Witness for C5 on two concrete reachable states: one with an active
question, one after a removal. -/
theorem active_status_equivalence_witness :
    (exPoll4.currentQuestion.isSome ↔ exPoll4.status = PollStatus.active) ∧
    (exPoll5.currentQuestion.isSome ↔ exPoll5.status = PollStatus.active) :=
  ⟨active_status_equivalence exPoll4 reachable_exPoll4,
   active_status_equivalence exPoll5 reachable_exPoll5⟩

/-- C9: removing a participant only shrinks the students map: the current
question (hence its vote counters), the status, the history and the poll
identities are untouched, and the removal never closes the question — even
when every remaining participant has answered (`checkAllAnswered`), the
question stays open. -/
theorem remove_participant_frame (p p' : Poll) (sid : String)
    (h : removeStudentFromPoll p sid = Except.ok p') :
    p'.currentQuestion = p.currentQuestion ∧
    p'.status = p.status ∧
    p'.questionHistory = p.questionHistory ∧
    p'.id = p.id ∧
    p'.teacherSocketId = p.teacherSocketId ∧
    p'.students = eraseStudent p.students sid ∧
    (∀ q, p.currentQuestion = some q → checkAllAnswered p' = true →
      p'.currentQuestion = some q) := by
  obtain ⟨_, rfl⟩ := removeStudentFromPoll_ok h
  exact ⟨rfl, rfl, rfl, rfl, rfl, rfl, fun q hq _ => hq⟩

/-- Witness for C9: Bob is removed after both students answered; every
remaining participant has answered, yet the question is still open. -/
theorem remove_participant_frame_witness :
    exPoll7.currentQuestion = exPoll6.currentQuestion ∧
    exPoll7.status = exPoll6.status ∧
    exPoll7.questionHistory = exPoll6.questionHistory ∧
    checkAllAnswered exPoll7 = true ∧
    exPoll7.currentQuestion = some exQuestion6 := by
  have h := remove_participant_frame exPoll6 exPoll7 "s2" exPoll7_eq
  exact ⟨h.1, h.2.1, h.2.2.1, by decide, h.2.2.2.2.2.2 exQuestion6 (by decide) (by decide)⟩

/-- C10: polls are created `waiting`, opening a question makes them `active`,
closing returns them to `waiting`, and no reachable poll ever carries the
declared third status `ended`. -/
theorem status_lifecycle (p : Poll) (qid text : String) (opts : List String) (t : Nat) :
    (∀ i tid, (createPoll i tid).status = PollStatus.waiting) ∧
    (∀ p', startQuestion p qid text opts t = Except.ok p' →
      p'.status = PollStatus.active) ∧
    (∀ q, p.currentQuestion = some q →
      (onTimerExpired p q.id).status = PollStatus.waiting) ∧
    (Reachable p → p.status = PollStatus.waiting ∨ p.status = PollStatus.active) := by
  refine ⟨fun i tid => rfl, fun p' h => ?_, fun q hq => ?_,
    fun hr => reachable_status_not_ended hr⟩
  · rw [(startQuestion_ok h).2]
  · rw [onTimerExpired_match hq]

/-- Witness for C10 along the concrete session. -/
theorem status_lifecycle_witness :
    exPoll3.status = PollStatus.active ∧
    (onTimerExpired exPoll4 "q1").status = PollStatus.waiting ∧
    (exPoll4.status = PollStatus.waiting ∨ exPoll4.status = PollStatus.active) :=
  ⟨(status_lifecycle exPoll2 "q1" "Q?" ["A", "B"] 10).2.1 exPoll3 exPoll3_eq,
   (status_lifecycle exPoll4 "q1" "Q?" ["A", "B"] 10).2.2.1 exQuestion4 rfl,
   (status_lifecycle exPoll4 "q1" "Q?" ["A", "B"] 10).2.2.2 reachable_exPoll4⟩

/-- C3: `submitAnswer` runs its checks in source order — no active question,
question-id mismatch, unknown participant, already answered, invalid option —
failing with the corresponding error at the first violated check; on success
it marks the participant answered with the chosen option and increments
exactly that option's counter by one (option ids of a constructed question
are distinct, hence the `Nodup` hypothesis in the success case). -/
theorem submit_validation_order (p : Poll) (sid qid ans : String) :
    (p.currentQuestion = none →
      submitAnswer p sid qid ans = Except.error PollError.pollNotActive) ∧
    (∀ q, p.currentQuestion = some q → q.id ≠ qid →
      submitAnswer p sid qid ans = Except.error PollError.questionChanged) ∧
    (∀ q, p.currentQuestion = some q → q.id = qid →
      lookupStudent p.students sid = none →
      submitAnswer p sid qid ans = Except.error PollError.studentNotFound) ∧
    (∀ q st, p.currentQuestion = some q → q.id = qid →
      lookupStudent p.students sid = some st → st.hasAnswered = true →
      submitAnswer p sid qid ans = Except.error PollError.alreadyAnswered) ∧
    (∀ q st, p.currentQuestion = some q → q.id = qid →
      lookupStudent p.students sid = some st → st.hasAnswered = false →
      (q.options.any fun o => o.id = ans) = false →
      submitAnswer p sid qid ans = Except.error PollError.invalidAnswer) ∧
    (∀ q st, p.currentQuestion = some q → q.id = qid →
      lookupStudent p.students sid = some st → st.hasAnswered = false →
      (q.options.any fun o => o.id = ans) = true →
      (q.options.map PollOption.id).Nodup →
      ∃ p', submitAnswer p sid qid ans = Except.ok p' ∧
        lookupStudent p'.students sid =
          some { st with hasAnswered := true, answer := some ans } ∧
        (∀ k, k ≠ sid → lookupStudent p'.students k = lookupStudent p.students k) ∧
        p'.currentQuestion = some { q with options := q.options.map fun o =>
          if o.id = ans then { o with votes := o.votes + 1 } else o } ∧
        p'.status = p.status ∧ p'.questionHistory = p.questionHistory) := by
  refine ⟨?_, ?_, ?_, ?_, ?_, ?_⟩
  · intro h
    simp [submitAnswer, h]
  · intro q hq hne
    simp [submitAnswer, hq, hne]
  · intro q hq hid hl
    simp [submitAnswer, hq, hid, hl]
  · intro q st hq hid hl hha
    simp [submitAnswer, hq, hid, hl, hha]
  · intro q st hq hid hl hha hopt
    simp [submitAnswer, hq, hid, hl, hha, hopt]
  · intro q st hq hid hl hha hopt hnd
    have hok : submitAnswer p sid qid ans = Except.ok
        { p with
          students := updateStudent p.students sid
            (fun s => { s with hasAnswered := true, answer := some ans })
          currentQuestion := some { q with options := incFirstVote q.options ans } } := by
      simp [submitAnswer, hq, hid, hl, hha, hopt]
    refine ⟨_, hok, ?_, ?_, ?_, rfl, rfl⟩
    · exact lookupStudent_updateStudent_self p.students sid _ hl
    · exact fun k hk => lookupStudent_updateStudent_ne p.students sid k _ hk
    · simp [incFirstVote_eq_map_of_nodup hnd]

/-- Witness for C3: Alice's valid first submission succeeds and records her
answer; a submission against a stale question id fails with the mismatch
error. -/
theorem submit_validation_order_witness :
    (∃ p', submitAnswer exPoll3 "s1" "q1" "option_0" = Except.ok p' ∧
      lookupStudent p'.students "s1" =
        some { exAlice with hasAnswered := true, answer := some "option_0" }) ∧
    submitAnswer exPoll3 "s1" "zzz" "option_0" =
      Except.error PollError.questionChanged := by
  constructor
  · obtain ⟨p', h1, h2, _⟩ :=
      (submit_validation_order exPoll3 "s1" "q1" "option_0").2.2.2.2.2
        exQuestion3 exAlice (by decide) (by decide) (by decide) (by decide)
        (by decide) (by decide)
    exact ⟨p', h1, h2⟩
  · exact (submit_validation_order exPoll3 "s1" "zzz" "option_0").2.1
      exQuestion3 (by decide) (by decide)

/-- C6: failed submissions mutate nothing. A second submission by the same
participant returns `alreadyAnswered` against the state produced by the
first (which therefore keeps its vote counts — the model's error branches
build no new state, matching the source where every throw precedes the
mutations); an invalid option id fails with `invalidAnswer` on the unchanged
state, from which the participant's legitimate submission still succeeds. -/
theorem failed_submit_no_mutation (p p₁ : Poll) (sid qid ans bad : String) :
    (submitAnswer p sid qid ans = Except.ok p₁ →
      submitAnswer p₁ sid qid ans = Except.error PollError.alreadyAnswered) ∧
    (∀ q st, p.currentQuestion = some q → q.id = qid →
      lookupStudent p.students sid = some st → st.hasAnswered = false →
      (q.options.any fun o => o.id = bad) = false →
      (q.options.any fun o => o.id = ans) = true →
      submitAnswer p sid qid bad = Except.error PollError.invalidAnswer ∧
      ∃ p', submitAnswer p sid qid ans = Except.ok p') := by
  constructor
  · intro h
    obtain ⟨q, st, hq, hid, hl, hha, hany, rfl⟩ := submitAnswer_ok h
    have hl' : lookupStudent (updateStudent p.students sid fun s =>
        { s with hasAnswered := true, answer := some ans }) sid =
        some { st with hasAnswered := true, answer := some ans } :=
      lookupStudent_updateStudent_self p.students sid _ hl
    simp [submitAnswer, hid, hl']
  · intro q st hq hid hl hha hbad hany
    constructor
    · simp [submitAnswer, hq, hid, hl, hha, hbad]
    · refine ⟨{ p with
          students := updateStudent p.students sid
            (fun s => { s with hasAnswered := true, answer := some ans })
          currentQuestion := some { q with options := incFirstVote q.options ans } },
        by simp [submitAnswer, hq, hid, hl, hha, hany]⟩

/-- Witness for C6: Alice's duplicate vote is rejected with
`alreadyAnswered`; her vote for the nonexistent `option_9` would have been
rejected with `invalidAnswer` while her real vote still goes through. -/
theorem failed_submit_no_mutation_witness :
    submitAnswer exPoll4 "s1" "q1" "option_0" =
      Except.error PollError.alreadyAnswered ∧
    submitAnswer exPoll3 "s1" "q1" "option_9" =
      Except.error PollError.invalidAnswer := by
  refine ⟨(failed_submit_no_mutation exPoll3 exPoll4 "s1" "q1" "option_0" "option_9").1
    exPoll4_eq, ?_⟩
  exact ((failed_submit_no_mutation exPoll3 exPoll4 "s1" "q1" "option_0" "option_9").2
    exQuestion3 exAlice (by decide) (by decide) (by decide) (by decide)
    (by decide) (by decide)).1

/-- C8: opening a question on a poll that already has one fails with
`pollAlreadyActive` (the source throws before touching any state, so the
first question, its votes and the status stay untouched); otherwise the new
question carries the given texts in order with all-zero votes, the status
becomes `active`, and every current participant is reset to
`hasAnswered = false`, `answer = none` while the participant keys are kept. -/
theorem open_question_contract (p p' : Poll) (qid text : String)
    (opts : List String) (t : Nat) :
    (∀ q, p.currentQuestion = some q →
      startQuestion p qid text opts t = Except.error PollError.pollAlreadyActive) ∧
    (p.currentQuestion = none → startQuestion p qid text opts t = Except.ok p' →
      p'.status = PollStatus.active ∧
      (∃ q, p'.currentQuestion = some q ∧ q.id = qid ∧ q.text = text ∧
        q.timeout = t ∧ q.options.map PollOption.text = opts ∧
        ∀ o ∈ q.options, o.votes = 0) ∧
      p'.students.map Prod.fst = p.students.map Prod.fst ∧
      (∀ kv ∈ p'.students, kv.2.hasAnswered = false ∧ kv.2.answer = none) ∧
      p'.questionHistory = p.questionHistory) := by
  constructor
  · intro q hq
    simp [startQuestion, hq]
  · intro hn h
    rw [(startQuestion_ok h).2]
    exact ⟨rfl,
      ⟨_, rfl, rfl, rfl, rfl, mkOptions_texts opts, fun o ho => mkOptions_votes ho⟩,
      resetStudents_keys p.students, fun kv hkv => mem_resetStudents hkv, rfl⟩

/-- Witness for C8: opening `q2` while `q1` is active fails; the original
open of `q1` on the waiting poll produced the active state. -/
theorem open_question_contract_witness :
    startQuestion exPoll3 "q2" "R?" ["C", "D"] 5 =
      Except.error PollError.pollAlreadyActive ∧
    exPoll3.status = PollStatus.active ∧
    exPoll3.questionHistory = exPoll2.questionHistory := by
  have h1 := (open_question_contract exPoll3 exPoll3 "q2" "R?" ["C", "D"] 5).1
    exQuestion3 (by decide)
  have h2 := (open_question_contract exPoll2 exPoll3 "q1" "Q?" ["A", "B"] 10).2
    (by decide) exPoll3_eq
  exact ⟨h1, h2.1, h2.2.2.2.2⟩

/-- C2 counterexample: on the reachable state `exPoll4` (Alice has voted),
removing Alice succeeds and leaves her vote in the option counters while no
remaining participant has answered: the sum of votes is 1 but the answered
count is 0, so the invariant does not survive participant removal. -/
theorem vote_sum_broken_by_removal :
    Reachable exPoll4 ∧
    removeStudentFromPoll exPoll4 "s1" = Except.ok exPoll5 ∧
    (exPoll5.currentQuestion.map fun q => sumVotes q.options) = some 1 ∧
    answeredCount exPoll5.students = 0 :=
  ⟨reachable_exPoll4, exPoll5_eq, by decide, by decide⟩

/-- C2 as amended: on every state reachable while each join uses a fresh
participant id and each removal (removal / leave / disconnect) removes a
participant who has not answered, the sum of the active question's vote
counters equals the number of participants with `hasAnswered = true` after
every operation. Removing (or overwriting) an answered participant breaks
the equality, as the counterexample shows. -/
theorem vote_sum_matches_answered (p : Poll) (h : ReachableNR p) :
    ∀ q, p.currentQuestion = some q →
      sumVotes q.options = answeredCount p.students :=
  reachableNR_vote_sum h

/-- Witness for the amended C2 at the concrete state with Alice's vote in. -/
theorem vote_sum_matches_answered_witness :
    sumVotes exQuestion4.options = answeredCount exPoll4.students :=
  vote_sum_matches_answered exPoll4 reachableNR_exPoll4 exQuestion4 (by decide)

/-- C7 counterexample: closing the question (the timer-expiry path, not the
open operation) also resets Alice's `hasAnswered` flag on the reachable state
`exPoll4`: before the close her flag is set, after `onTimerExpired` it is
cleared, so the flag is not reset only by the open operation. -/
theorem hasAnswered_reset_by_close :
    Reachable exPoll4 ∧
    (lookupStudent exPoll4.students "s1").map Student.hasAnswered = some true ∧
    exPoll4.currentQuestion.map Question.id = some "q1" ∧
    (lookupStudent (onTimerExpired exPoll4 "q1").students "s1").map
      Student.hasAnswered = some false :=
  ⟨reachable_exPoll4, by decide, by decide, by decide⟩

/-- C7 as amended: `hasAnswered` (with the stored answer) is reset exactly by
the open operation and by the close operation — both reset every participant —
and by no other operation: a successful submission, a join of a fresh
participant, or a removal never clears the flag of a participant who is still
present (a re-join under the same socket id replaces the participant record
wholesale and is the join-side creation of a new participant). -/
theorem hasAnswered_reset_only_on_open_or_close (p p' : Poll) :
    (∀ qid text opts t, startQuestion p qid text opts t = Except.ok p' →
      ∀ kv ∈ p'.students, kv.2.hasAnswered = false ∧ kv.2.answer = none) ∧
    (∀ q, p.currentQuestion = some q →
      ∀ kv ∈ (onTimerExpired p q.id).students,
        kv.2.hasAnswered = false ∧ kv.2.answer = none) ∧
    (∀ sid qid ans k st st', submitAnswer p sid qid ans = Except.ok p' →
      lookupStudent p.students k = some st →
      lookupStudent p'.students k = some st' →
      st.hasAnswered = true → st'.hasAnswered = true ∧ st'.answer = st.answer) ∧
    (∀ sid name k st st', addStudentToPoll p sid name = Except.ok p' → k ≠ sid →
      lookupStudent p.students k = some st →
      lookupStudent p'.students k = some st' →
      st.hasAnswered = true → st'.hasAnswered = true ∧ st'.answer = st.answer) ∧
    (∀ sid k st st', removeStudentFromPoll p sid = Except.ok p' → k ≠ sid →
      lookupStudent p.students k = some st →
      lookupStudent p'.students k = some st' →
      st.hasAnswered = true → st'.hasAnswered = true ∧ st'.answer = st.answer) := by
  refine ⟨?_, ?_, ?_, ?_, ?_⟩
  · intro qid text opts t h kv hkv
    rw [(startQuestion_ok h).2] at hkv
    exact mem_resetStudents hkv
  · intro q hq kv hkv
    rw [onTimerExpired_match hq] at hkv
    exact mem_resetStudents hkv
  · intro sid qid ans k st st' h hlk hlk' hst
    obtain ⟨q, st₀, hq, hid, hl₀, hha₀, hany, rfl⟩ := submitAnswer_ok h
    by_cases hk : k = sid
    · subst hk
      rw [hlk] at hl₀
      injection hl₀ with he
      rw [← he, hst] at hha₀
      exact absurd hha₀ (by simp)
    · rw [lookupStudent_updateStudent_ne p.students sid k _ hk] at hlk'
      rw [hlk] at hlk'
      injection hlk' with he
      exact ⟨he ▸ hst, he ▸ rfl⟩
  · intro sid name k st st' h hk hlk hlk'
    rw [addStudentToPoll_ok h] at hlk'
    rw [lookupStudent_setStudent_ne p.students sid k _ hk, hlk] at hlk'
    injection hlk' with he
    intro hst
    exact ⟨he ▸ hst, he ▸ rfl⟩
  · intro sid k st st' h hk hlk hlk'
    rw [(removeStudentFromPoll_ok h).2] at hlk'
    rw [lookupStudent_eraseStudent_ne p.students sid k hk, hlk] at hlk'
    injection hlk' with he
    intro hst
    exact ⟨he ▸ hst, he ▸ rfl⟩

/-- Witness for the amended C7: after Bob's submission on `exPoll4` produces
`exPoll6`, Alice — who had already answered — still has her flag and stored
answer intact. -/
theorem hasAnswered_reset_only_on_open_or_close_witness :
    ∃ st', lookupStudent exPoll6.students "s1" = some st' ∧
      st'.hasAnswered = true := by
  obtain ⟨h1, h2⟩ := (hasAnswered_reset_only_on_open_or_close exPoll4 exPoll6).2.2.1
    "s2" "q1" "option_1" "s1"
    { exAlice with hasAnswered := true, answer := some "option_0" }
    { exAlice with hasAnswered := true, answer := some "option_0" }
    exPoll6_eq (by decide) (by decide) (by decide)
  exact ⟨_, by decide, h1⟩

/-- C4 counterexample: on the reachable state `exPoll5` (Alice voted, then was
removed) a question is active, yet the read API (`getPollResults`, live
counters) and the closing computation (`calculateResults`, recount from the
stored answers) report different per-option vote counts. -/
theorem results_paths_diverge :
    Reachable exPoll5 ∧
    exPoll5.currentQuestion.isSome = true ∧
    (getPollResults exPoll5).toOption.map LiveResults.options ≠
      some (calculateResults exPoll5).options :=
  ⟨reachable_exPoll5, by decide, by decide⟩

/-- C4 as amended: the two result paths agree — same per-option counts in the
question's option order, same respondent total, same respondent name list —
on every poll state with an active question in which each answered
participant still stores a (truthy) answer and each option's live counter
equals the number of answered participants who stored that option's id;
both conditions hold until an answered participant is removed (or
overwritten), after which the paths can diverge as the counterexample shows. -/
theorem results_aggregation_agree (p : Poll) (q : Question)
    (hq : p.currentQuestion = some q)
    (hans : ∀ kv ∈ p.students, kv.2.hasAnswered = true →
      answerTruthy kv.2.answer = true)
    (hvotes : ∀ o ∈ q.options, o.votes =
      ((p.students.filter fun kv => kv.2.hasAnswered).filter
        (fun kv => kv.2.answer = some o.id)).length) :
    getPollResults p = Except.ok
      { question := q.text
        options := (calculateResults p).options
        totalResponses := (calculateResults p).totalResponses
        totalStudents := p.students.length
        participants := (calculateResults p).participants } := by
  have hfilter :
      p.students.filter (fun kv => kv.2.hasAnswered && answerTruthy kv.2.answer) =
      p.students.filter (fun kv => kv.2.hasAnswered) := by
    apply List.filter_congr
    intro kv hkv
    cases hha : kv.2.hasAnswered with
    | false => simp [hha]
    | true => simp [hha, hans kv hkv hha]
  have hopts : (q.options.map fun o =>
      { o with votes := ((p.students.filter fun kv => kv.2.hasAnswered).filter
        (fun kv => kv.2.answer = some o.id)).length }) = q.options := by
    have hids : ∀ o ∈ q.options, ({ o with votes :=
        ((p.students.filter fun kv => kv.2.hasAnswered).filter
          (fun kv => kv.2.answer = some o.id)).length } : PollOption) = o := by
      intro o ho
      rw [← hvotes o ho]
    calc (q.options.map fun o => { o with votes :=
          ((p.students.filter fun kv => kv.2.hasAnswered).filter
            (fun kv => kv.2.answer = some o.id)).length })
        = q.options.map id := List.map_congr_left hids
      _ = q.options := List.map_id q.options
  unfold getPollResults calculateResults
  rw [hq]
  simp only [hfilter, hopts, List.length_map]

/-- Witness for the amended C4 at `exPoll4`, where the live counters and the
recount agree. -/
theorem results_aggregation_agree_witness :
    getPollResults exPoll4 = Except.ok
      { question := exQuestion4.text
        options := (calculateResults exPoll4).options
        totalResponses := (calculateResults exPoll4).totalResponses
        totalStudents := exPoll4.students.length
        participants := (calculateResults exPoll4).participants } :=
  results_aggregation_agree exPoll4 exQuestion4 (by decide) (by decide) (by decide)
